import Mathlib

/-
Verification of the Cloudflare Workers entrypoint adapter
(packages/platform-cloudflare: CloudflareEntrypoint and its internal
context module).

The development shallowly embeds the adapter factories
(makeFetchHandler and its four variants, makeScheduledHandler,
makeQueueHandler, makeEmailHandler, makeTailHandler, makeEntrypoint)
together with the per-invocation context construction from the internal
context module.  Effect computations are modelled as functions from a
capability registry (effect Context) to an Exit value; running an
effect as a promise maps a failing exit to a rejected promise, matching
Effect.runPromise.  Definitions whose source lives outside the
platform-cloudflare package (effect ManagedRuntime, platform
HttpApp.toWebHandlerRuntime) are modelled from the specification and
marked as such in their doc comments.
-/

namespace CFW

/-- An inbound network request (the host's native Request object). -/
structure Request where
  url : String
deriving DecidableEq

/-- A response object: status code plus body. -/
structure Response where
  status : Nat
  body : String
deriving DecidableEq

/-- The per-invocation environment-bindings map supplied by the host. -/
abbrev EnvMap := List (String × String)

/-- The host's native ExecutionContext object, identified by an id. -/
structure RawExecutionContext where
  ctxId : Nat
deriving DecidableEq

/-- The host's native ScheduledController object. -/
structure RawScheduledController where
  scheduledTime : Nat
  cron : String
deriving DecidableEq

/-- A single queued message. -/
structure RawMessage where
  msgId : String
  msgBody : String
deriving DecidableEq

/-- The host's native MessageBatch object. -/
structure RawMessageBatch where
  queue : String
  messages : List RawMessage
deriving DecidableEq

/-- The host's native ForwardableEmailMessage object. -/
structure RawEmailMessage where
  fromAddr : String
  toAddr : String
  rawSize : Nat
deriving DecidableEq

/-- The host's native ordered sequence of tail (diagnostic) events. -/
abbrev RawTailEvents := List String

/-- Domain wrapper around the host ExecutionContext
(internal context module, interface CloudflareExecutionContext). -/
structure CloudflareExecutionContext where
  raw : RawExecutionContext
deriving DecidableEq

/-- makeExecutionContext from the internal context module. -/
def makeExecutionContext (ctx : RawExecutionContext) : CloudflareExecutionContext :=
  { raw := ctx }

/-- Domain wrapper around the host ScheduledController. -/
structure CloudflareScheduledController where
  scheduledTime : Nat
  cron : String
  raw : RawScheduledController
deriving DecidableEq

/-- makeScheduledController from the internal context module. -/
def makeScheduledController (controller : RawScheduledController) :
    CloudflareScheduledController :=
  { scheduledTime := controller.scheduledTime
    cron := controller.cron
    raw := controller }

/-- Domain wrapper around the host MessageBatch. -/
structure CloudflareMessageBatch where
  queue : String
  messages : List RawMessage
  raw : RawMessageBatch
deriving DecidableEq

/-- makeMessageBatch from the internal context module. -/
def makeMessageBatch (batch : RawMessageBatch) : CloudflareMessageBatch :=
  { queue := batch.queue
    messages := batch.messages
    raw := batch }

/-- Domain wrapper around the host ForwardableEmailMessage. -/
structure CloudflareForwardableEmailMessage where
  fromAddr : String
  toAddr : String
  rawSize : Nat
  raw_message : RawEmailMessage
deriving DecidableEq

/-- makeForwardableEmailMessage from the internal context module. -/
def makeForwardableEmailMessage (message : RawEmailMessage) :
    CloudflareForwardableEmailMessage :=
  { fromAddr := message.fromAddr
    toAddr := message.toAddr
    rawSize := message.rawSize
    raw_message := message }

/-- Domain wrapper around the host tail-event sequence. -/
structure CloudflareTailEvents where
  events : RawTailEvents
  raw : RawTailEvents
deriving DecidableEq

/-- makeTailEvents from the internal context module. -/
def makeTailEvents (events : RawTailEvents) : CloudflareTailEvents :=
  { events := events
    raw := events }

/-- Capability keys (effect Context tags).  The six tags of the
platform-cloudflare context module, plus named keys for services
materialized from the layer. -/
inductive TagKey where
  | executionContext
  | env
  | scheduledController
  | messageBatch
  | forwardableEmailMessage
  | tailEvents
  | service (name : String)
deriving DecidableEq

/-- Capability values stored in a context. -/
inductive CapValue where
  | execCtx (c : CloudflareExecutionContext)
  | envMap (e : EnvMap)
  | scheduled (s : CloudflareScheduledController)
  | batch (b : CloudflareMessageBatch)
  | email (m : CloudflareForwardableEmailMessage)
  | tail (t : CloudflareTailEvents)
  | service (v : String)
deriving DecidableEq

/-- A capability registry (effect Context): bindings with the first
occurrence of a key taking precedence. -/
abbrev Ctx := List (TagKey × CapValue)

/-- Context lookup: first binding for the key wins. -/
def lookupCtx : Ctx → TagKey → Option CapValue
  | [], _ => none
  | (k, v) :: rest, key => if k = key then some v else lookupCtx rest key

/-- Context.make: a singleton registry. -/
def ctxMake (k : TagKey) (v : CapValue) : Ctx := [(k, v)]

/-- Context.add: add a binding, overriding any existing binding for
the same key (the new binding is found first). -/
def ctxAdd (c : Ctx) (k : TagKey) (v : CapValue) : Ctx := (k, v) :: c

/-- Merge of the shared runtime registry with a per-invocation overlay:
overlay bindings win, everything else falls through to the runtime
registry (Effect.provide merges the provided context over the outer
one). -/
def mergeCtx (runtimeCtx overlay : Ctx) : Ctx := overlay ++ runtimeCtx

theorem lookupCtx_append (l1 l2 : Ctx) (k : TagKey) :
    lookupCtx (l1 ++ l2) k =
      (match lookupCtx l1 k with
        | some v => some v
        | none => lookupCtx l2 k) := by
  induction l1 with
  | nil => simp [lookupCtx]
  | cons hd tl ih =>
    obtain ⟨hk, hv⟩ := hd
    by_cases h : hk = k <;> simp [lookupCtx, h, ih]

/-- A failure cause: either a typed (recoverable) failure or a defect
(unrecoverable abort). -/
inductive Cause (E : Type) where
  | fail (e : E)
  | die (message : String)
deriving DecidableEq

/-- The outcome of a computation. -/
inductive Exit (E A : Type) where
  | success (a : A)
  | failure (c : Cause E)
deriving DecidableEq

/-- An effect computation: reads the capability registry it is run
against and produces an exit.  (Deterministic fragment, which is all
the adapter claims need.) -/
abbrev Eff (E A : Type) := Ctx → Exit E A

/-- Effect.provide: run the effect with the given context merged over
whatever outer context the runtime supplies. -/
def provide (effect : Eff E A) (context : Ctx) : Eff E A :=
  fun outer => effect (mergeCtx outer context)

/-- What a host-visible promise settles to. -/
inductive PromiseResult (E A : Type) where
  | resolved (a : A)
  | rejected (c : Cause E)
deriving DecidableEq

/-- runtime.runPromise: run the effect against the runtime's
materialized registry; a failing exit rejects the promise (with a
FiberFailure carrying the cause), a successful exit resolves it. -/
def runPromise (rtCtx : Ctx) (effect : Eff E A) : PromiseResult E A :=
  match effect rtCtx with
  | .success a => .resolved a
  | .failure c => .rejected c

/-- The per-invocation request context built by every fetch handler
variant: Context.make(ExecutionContext, makeExecutionContext ctx)
piped through Context.add(Env, env). -/
def fetchRequestContext (ctx : RawExecutionContext) (env : EnvMap) : Ctx :=
  ctxAdd (ctxMake .executionContext (.execCtx (makeExecutionContext ctx)))
    .env (.envMap env)

/-- The per-invocation request context of makeScheduledHandler:
Context.make(ScheduledController, wrapper) then add ExecutionContext,
then add Env. -/
def scheduledRequestContext (controller : RawScheduledController)
    (ctx : RawExecutionContext) (env : EnvMap) : Ctx :=
  ctxAdd
    (ctxAdd (ctxMake .scheduledController (.scheduled (makeScheduledController controller)))
      .executionContext (.execCtx (makeExecutionContext ctx)))
    .env (.envMap env)

/-- The per-invocation request context of makeQueueHandler. -/
def queueRequestContext (batch : RawMessageBatch)
    (ctx : RawExecutionContext) (env : EnvMap) : Ctx :=
  ctxAdd
    (ctxAdd (ctxMake .messageBatch (.batch (makeMessageBatch batch)))
      .executionContext (.execCtx (makeExecutionContext ctx)))
    .env (.envMap env)

/-- The per-invocation request context of makeEmailHandler. -/
def emailRequestContext (message : RawEmailMessage)
    (ctx : RawExecutionContext) (env : EnvMap) : Ctx :=
  ctxAdd
    (ctxAdd (ctxMake .forwardableEmailMessage (.email (makeForwardableEmailMessage message)))
      .executionContext (.execCtx (makeExecutionContext ctx)))
    .env (.envMap env)

/-- The per-invocation request context of makeTailHandler. -/
def tailRequestContext (events : RawTailEvents)
    (ctx : RawExecutionContext) (env : EnvMap) : Ctx :=
  ctxAdd
    (ctxAdd (ctxMake .tailEvents (.tail (makeTailEvents events)))
      .executionContext (.execCtx (makeExecutionContext ctx)))
    .env (.envMap env)

/-- Business logic for a void-returning event kind, as the tagged
variant the source expresses through overloads: either a pull-style
computation or a push-style function receiving the wrapped native
arguments (the source dispatches on typeof options.handler). -/
inductive Logic (Ev E : Type) where
  | computation (effect : Eff E Unit)
  | function (f : Ev → EnvMap → CloudflareExecutionContext → Eff E Unit)

/-- Business logic for the fetch kind: the effect variant (pull
style) or the function variant (push style) of makeFetchHandler. -/
inductive FetchLogic (E : Type) where
  | computation (effect : Eff E Response)
  | function (f : Request → EnvMap → CloudflareExecutionContext → Eff E Response)

/-- One invocation of the handler returned by
makeFetchHandlerFromEffect: build the request context, provide it to
the configured effect and run it as a promise on the shared runtime. -/
def fetchEffectInvoke (effect : Eff E Response) (rtCtx : Ctx)
    (_request : Request) (env : EnvMap) (ctx : RawExecutionContext) :
    PromiseResult E Response :=
  let requestContext := fetchRequestContext ctx env
  runPromise rtCtx (provide effect requestContext)

/-- One invocation of the handler returned by
makeFetchHandlerFromFunction: apply the configured function to the
request, the env map and the wrapped execution context, then provide
the same request context and run on the shared runtime. -/
def fetchFunctionInvoke
    (f : Request → EnvMap → CloudflareExecutionContext → Eff E Response)
    (rtCtx : Ctx) (request : Request) (env : EnvMap)
    (ctx : RawExecutionContext) : PromiseResult E Response :=
  let requestContext := fetchRequestContext ctx env
  let effect := f request env (makeExecutionContext ctx)
  runPromise rtCtx (provide effect requestContext)

/-- One invocation of the handler returned by makeScheduledHandler:
dispatch on the logic variant exactly as the source's typeof check
does, then run with the per-invocation request context provided. -/
def scheduledInvoke (logic : Logic CloudflareScheduledController E)
    (rtCtx : Ctx) (controller : RawScheduledController) (env : EnvMap)
    (ctx : RawExecutionContext) : PromiseResult E Unit :=
  let requestContext := scheduledRequestContext controller ctx env
  let effect :=
    match logic with
    | .function f =>
        f (makeScheduledController controller) env (makeExecutionContext ctx)
    | .computation e => e
  runPromise rtCtx (provide effect requestContext)

/-- One invocation of the handler returned by makeQueueHandler. -/
def queueInvoke (logic : Logic CloudflareMessageBatch E)
    (rtCtx : Ctx) (batch : RawMessageBatch) (env : EnvMap)
    (ctx : RawExecutionContext) : PromiseResult E Unit :=
  let requestContext := queueRequestContext batch ctx env
  let effect :=
    match logic with
    | .function f => f (makeMessageBatch batch) env (makeExecutionContext ctx)
    | .computation e => e
  runPromise rtCtx (provide effect requestContext)

/-- One invocation of the handler returned by makeEmailHandler. -/
def emailInvoke (logic : Logic CloudflareForwardableEmailMessage E)
    (rtCtx : Ctx) (message : RawEmailMessage) (env : EnvMap)
    (ctx : RawExecutionContext) : PromiseResult E Unit :=
  let requestContext := emailRequestContext message ctx env
  let effect :=
    match logic with
    | .function f =>
        f (makeForwardableEmailMessage message) env (makeExecutionContext ctx)
    | .computation e => e
  runPromise rtCtx (provide effect requestContext)

/-- One invocation of the handler returned by makeTailHandler. -/
def tailInvoke (logic : Logic CloudflareTailEvents E)
    (rtCtx : Ctx) (events : RawTailEvents) (env : EnvMap)
    (ctx : RawExecutionContext) : PromiseResult E Unit :=
  let requestContext := tailRequestContext events ctx env
  let effect :=
    match logic with
    | .function f => f (makeTailEvents events) env (makeExecutionContext ctx)
    | .computation e => e
  runPromise rtCtx (provide effect requestContext)

/-- The optional middleware of the HttpApi fetch variant, applied to
the built app before caching (source: options.middleware present or
absent). -/
def applyMiddleware (middleware : Option (Eff E Response → Eff E Response))
    (app : Eff E Response) : Eff E Response :=
  match middleware with
  | some m => m app
  | none => app

/-- Modelled from the spec: HttpApp.toWebHandlerRuntime (platform
package, not under src).  The built web handler runs the app against
the runtime registry merged with the per-request context and always
resolves with a response: an unrecoverable abort or failure in the
app surfaces to the host as an error-status response (status 500)
rather than crashing the adapter. -/
def toWebHandlerRuntime (rtCtx : Ctx) (app : Eff E Response)
    (_request : Request) (requestContext : Ctx) : Response :=
  match app (mergeCtx rtCtx requestContext) with
  | .success response => response
  | .failure _ => { status := 500, body := "Internal Server Error" }

/-- One invocation of the handler returned by makeFetchHandlerFromApi
(after the build has produced the web handler from the app, with
middleware applied): the promise resolves with the web handler's
response. -/
def apiHandlerInvoke (middleware : Option (Eff E Response → Eff E Response))
    (app : Eff E Response) (rtCtx : Ctx) (request : Request)
    (env : EnvMap) (ctx : RawExecutionContext) : PromiseResult E Response :=
  let requestContext := fetchRequestContext ctx env
  .resolved (toWebHandlerRuntime rtCtx (applyMiddleware middleware app)
    request requestContext)

/-- One invocation of the handler returned by
makeFetchHandlerFromHttpApp (the built web handler around the
configured httpApp). -/
def httpAppHandlerInvoke (httpApp : Eff E Response) (rtCtx : Ctx)
    (request : Request) (env : EnvMap) (ctx : RawExecutionContext) :
    PromiseResult E Response :=
  let requestContext := fetchRequestContext ctx env
  .resolved (toWebHandlerRuntime rtCtx httpApp request requestContext)

/-- The handler-cache state of makeFetchHandlerFromApi (and the
structurally identical makeFetchHandlerFromHttpApp).  H is the type of
the built web handler.  buildPending records that the single build
task started by runtime.runPromise(build) at construction has not yet
run on the host event loop; buildRuns counts executions of the build
computation; cachedHandler is the cachedHandler variable the build
assigns. -/
structure ApiAdapterState (H : Type) where
  buildPending : Bool
  buildRuns : Nat
  cachedHandler : Option H
deriving DecidableEq

/-- Adapter construction: the factory body calls
runtime.runPromise(build) immediately, so the state returned by
construction has the one build task scheduled (pending), zero build
executions so far, and no cached handler yet. -/
def makeApiAdapter (H : Type) : ApiAdapterState H :=
  { buildPending := true, buildRuns := 0, cachedHandler := none }

/-- The host event loop runs the scheduled build task: the build
computation executes (producing the web handler buildResult), assigns
cachedHandler, and settles handlerPromise with the same value.  There
is only one such task, so running it again is impossible; modelled by
the pending guard. -/
def runBuildTask (buildResult : H) (s : ApiAdapterState H) : ApiAdapterState H :=
  if s.buildPending then
    { buildPending := false, buildRuns := s.buildRuns + 1
      cachedHandler := some buildResult }
  else s

/-- The branch test of the handler body: an invocation uses the
synchronous cached path exactly when cachedHandler is set
(source: if cachedHandler is not undefined). -/
def invokeUsesCache (s : ApiAdapterState H) : Bool :=
  s.cachedHandler.isSome

/-- The web handler an invocation observes: the cached handler when
set, otherwise the value handlerPromise settles with, which is the
build result (all awaiting callers observe the same settled value). -/
def invokeObserve (buildResult : H) (s : ApiAdapterState H) : H :=
  match s.cachedHandler with
  | some h => h
  | none => buildResult

/-- A schedule of N = pre + post concurrent first invocations around
the completion of the single build task: pre invocations arrive before
the build settles (they await handlerPromise), post invocations arrive
after (they use the cached handler).  Returns the final adapter state
and the web handler observed by each invocation. -/
def runSchedule (H : Type) (buildResult : H) (pre post : Nat) :
    ApiAdapterState H × List H :=
  let s0 := makeApiAdapter H
  let preObs := List.replicate pre (invokeObserve buildResult s0)
  let s1 := runBuildTask buildResult s0
  let postObs := List.replicate post (invokeObserve buildResult s1)
  (s1, preObs ++ postObs)

/-- Modelled from the spec: the state of effect ManagedRuntime (the
effect package runtime container, not under src).  materialize() is
memoized: the underlying assembly construction runs once, acquiring
its resources; teardown (dispose) is idempotent and runs release
actions at most once. -/
structure MRState where
  materializeRuns : Nat
  acquired : Bool
  released : Nat
  disposed : Bool
deriving DecidableEq

/-- Modelled from the spec: ManagedRuntime.make — nothing materialized
yet, nothing acquired, nothing released, not disposed. -/
def mrMake : MRState := { materializeRuns := 0, acquired := false, released := 0, disposed := false }

/-- Modelled from the spec: one materialize() call — runs the assembly
construction exactly once (memoized), acquiring its resources. -/
def mrMaterialize (s : MRState) : MRState :=
  if s.materializeRuns = 0 then
    { s with materializeRuns := 1, acquired := true }
  else s

/-- N materialize() calls in sequence. -/
def mrMaterializeN : Nat → MRState → MRState
  | 0, s => s
  | n + 1, s => mrMaterializeN n (mrMaterialize s)

/-- Modelled from the spec: runtime.dispose — idempotent teardown;
release actions of acquired resources run exactly once, and a dispose
before materialization releases nothing and does not raise. -/
def mrDispose (s : MRState) : MRState :=
  if s.disposed then s
  else
    { s with
        disposed := true,
        released := if s.acquired then s.released + 1 else s.released }

/-- The object returned by each single-kind factory:
a handler matching the native call shape and the runtime's dispose. -/
structure AdapterResult (H : Type) where
  handler : H
  dispose : MRState → MRState

/-- makeFetchHandler for the effect and function variants: the handler
dispatches on the options shape, dispose is the runtime's dispose. -/
def makeFetchHandler (logic : FetchLogic E) :
    AdapterResult (Ctx → Request → EnvMap → RawExecutionContext → PromiseResult E Response) :=
  { handler := fun rtCtx request env ctx =>
      match logic with
      | .computation e => fetchEffectInvoke e rtCtx request env ctx
      | .function f => fetchFunctionInvoke f rtCtx request env ctx
    dispose := mrDispose }

/-- makeScheduledHandler: handler plus the runtime's dispose. -/
def makeScheduledHandler (logic : Logic CloudflareScheduledController E) :
    AdapterResult (Ctx → RawScheduledController → EnvMap → RawExecutionContext → PromiseResult E Unit) :=
  { handler := fun rtCtx controller env ctx =>
      scheduledInvoke logic rtCtx controller env ctx
    dispose := mrDispose }

/-- makeQueueHandler: handler plus the runtime's dispose. -/
def makeQueueHandler (logic : Logic CloudflareMessageBatch E) :
    AdapterResult (Ctx → RawMessageBatch → EnvMap → RawExecutionContext → PromiseResult E Unit) :=
  { handler := fun rtCtx batch env ctx => queueInvoke logic rtCtx batch env ctx
    dispose := mrDispose }

/-- makeEmailHandler: handler plus the runtime's dispose. -/
def makeEmailHandler (logic : Logic CloudflareForwardableEmailMessage E) :
    AdapterResult (Ctx → RawEmailMessage → EnvMap → RawExecutionContext → PromiseResult E Unit) :=
  { handler := fun rtCtx message env ctx => emailInvoke logic rtCtx message env ctx
    dispose := mrDispose }

/-- makeTailHandler: handler plus the runtime's dispose. -/
def makeTailHandler (logic : Logic CloudflareTailEvents E) :
    AdapterResult (Ctx → RawTailEvents → EnvMap → RawExecutionContext → PromiseResult E Unit) :=
  { handler := fun rtCtx events env ctx => tailInvoke logic rtCtx events env ctx
    dispose := mrDispose }

/-- An effect computation paired with the log entries it emitted
(enough of the effect model to embed the waitUntil combinator chain
of makeExecutionContext). -/
structure EffL (E A : Type) where
  exit : Exit E A
  logs : List String

/-- fiber.await on the forked background fiber: an effect that always
succeeds, yielding the background fiber's exit as its value. -/
def fiberAwait (backgroundExit : Exit E A) : EffL E (Exit E A) :=
  { exit := .success backgroundExit, logs := [] }

/-- Rendering of a cause for Effect.logError. -/
def renderCause : Cause String → String
  | .fail e => e
  | .die message => message

/-- Effect.tapErrorCause(Effect.logError): logs the cause when the
effect it is applied to itself fails, and leaves it untouched when
that effect succeeds. -/
def tapErrorCauseLogError (e : EffL String A) : EffL String A :=
  match e.exit with
  | .failure c => { exit := e.exit, logs := e.logs ++ [renderCause c] }
  | .success _ => e

/-- Effect.asVoid. -/
def effAsVoid (e : EffL E A) : EffL E Unit :=
  { exit :=
      match e.exit with
      | .success _ => .success ()
      | .failure c => .failure c
    logs := e.logs }

/-- The computation makeExecutionContext hands to the host's
ctx.waitUntil, as a function of the background fiber's eventual exit:
pipe(fiber.await, Effect.tapErrorCause(Effect.logError),
Effect.asVoid), run via Runtime.runPromise. -/
def waitUntilBackground (backgroundExit : Exit String A) : EffL String Unit :=
  effAsVoid (tapErrorCauseLogError (fiberAwait backgroundExit))

/-- Runtime.runPromise on a logged effect: the promise the host
extends the invocation's lifetime for. -/
def runPromiseL (e : EffL E A) : PromiseResult E A :=
  match e.exit with
  | .success a => .resolved a
  | .failure c => .rejected c

/-- The waitUntil member of makeExecutionContext, as seen by the
invocation logic that calls it: forking the background effect cannot
fail, so the effect returned to the caller always succeeds with unit
(its error type is never). -/
def waitUntilScheduling (_backgroundExit : Exit String A) : Exit String Unit :=
  .success ()

/-- A managed runtime identified by the layer it was built from. -/
structure MRuntime where
  layerId : Nat
deriving DecidableEq, BEq

/-- ManagedRuntime.make applied to a layer. -/
def managedRuntimeMake (layerId : Nat) : MRuntime := { layerId := layerId }

/-- The optional per-kind business logic accepted by makeEntrypoint
(options.handlers). -/
structure EntrypointHandlers (E : Type) where
  fetch : Option (FetchLogic E)
  scheduled : Option (Logic CloudflareScheduledController E)
  queue : Option (Logic CloudflareMessageBatch E)
  email : Option (Logic CloudflareForwardableEmailMessage E)
  tail : Option (Logic CloudflareTailEvents E)

/-- The options of makeEntrypoint: the shared layer and the optional
handlers map. -/
structure EntrypointOptions (E : Type) where
  layerId : Nat
  handlers : EntrypointHandlers E

/-- An entry of the export object produced by makeEntrypoint: the
event kind, the runtime the entry's handler closes over, and the
supplied business logic. -/
inductive EntryHandler (E : Type) where
  | fetch (runtime : MRuntime) (logic : FetchLogic E)
  | scheduled (runtime : MRuntime) (logic : Logic CloudflareScheduledController E)
  | queue (runtime : MRuntime) (logic : Logic CloudflareMessageBatch E)
  | email (runtime : MRuntime) (logic : Logic CloudflareForwardableEmailMessage E)
  | tail (runtime : MRuntime) (logic : Logic CloudflareTailEvents E)

/-- The runtime an entry's handler executes against. -/
def entryRuntime : EntryHandler E → MRuntime
  | .fetch rt _ => rt
  | .scheduled rt _ => rt
  | .queue rt _ => rt
  | .email rt _ => rt
  | .tail rt _ => rt

/-- makeEntrypoint: builds one shared ManagedRuntime from the supplied
layer, then assigns a property on the result object for exactly the
handlers supplied in options.handlers, each wired through the shared
runtime.  The export object is modelled as the association list of its
properties in assignment order. -/
def makeEntrypoint (options : EntrypointOptions E) :
    List (String × EntryHandler E) :=
  let runtime := managedRuntimeMake options.layerId
  (match options.handlers.fetch with
    | some logic => [("fetch", .fetch runtime logic)]
    | none => []) ++
  (match options.handlers.scheduled with
    | some logic => [("scheduled", .scheduled runtime logic)]
    | none => []) ++
  (match options.handlers.queue with
    | some logic => [("queue", .queue runtime logic)]
    | none => []) ++
  (match options.handlers.email with
    | some logic => [("email", .email runtime logic)]
    | none => []) ++
  (match options.handlers.tail with
    | some logic => [("tail", .tail runtime logic)]
    | none => [])

/-- Property lookup on the export object. -/
def lookupEntry : List (String × EntryHandler E) → String → Option (EntryHandler E)
  | [], _ => none
  | (k, v) :: rest, key => if k = key then some v else lookupEntry rest key

/-- Rendering of an environment-bindings map, used by probe logic to
report which bindings it observed. -/
def envString : EnvMap → String
  | [] => ""
  | (k, v) :: rest => k ++ "=" ++ v ++ ";" ++ envString rest

/-- Probe business logic (pull style): reads the per-invocation Env
capability from the context it is run against and returns it in the
response body. -/
def envProbeResponse {E : Type} : Eff E Response := fun context =>
  match lookupCtx context .env with
  | some (.envMap e) => .success { status := 200, body := envString e }
  | _ => .failure (.die "Env capability missing")

/-- Probe business logic that succeeds exactly when the Env capability
of the context it runs in equals the expected bindings map. -/
def envCheckProbe (expected : EnvMap) : Eff String Unit := fun context =>
  if lookupCtx context .env = some (.envMap expected) then .success ()
  else .failure (.die "Env capability mismatch")

/-- Business logic that aborts unrecoverably (a defect). -/
def dieResponseEff {E : Type} : Eff E Response := fun _ => .failure (.die "boom")

/-- A sample inbound request. -/
def sampleRequest : Request := { url := "http://localhost/" }

/-- A sample host execution context. -/
def sampleCtx : RawExecutionContext := { ctxId := 0 }

/-- A sample scheduled controller. -/
def sampleController : RawScheduledController :=
  { scheduledTime := 0, cron := "0 0 * * *" }

theorem mrDispose_idem (s : MRState) : mrDispose (mrDispose s) = mrDispose s := by
  by_cases h : s.disposed <;> simp [mrDispose, h]

theorem mrMaterializeN_of_ne (n : Nat) (s : MRState)
    (h : s.materializeRuns ≠ 0) : mrMaterializeN n s = s := by
  induction n with
  | zero => rfl
  | succ m ih => simp [mrMaterializeN, mrMaterialize, h, ih]

/-- C1 counterexample: the claim states that every makeFetchHandler
variant turns an unrecoverable abort of the business logic into a
resolved response with status at least 400 and never into a rejected
promise.  For the effect variant this is false: invoking the handler
of makeFetchHandlerFromEffect whose effect dies with the defect boom
yields a rejected promise carrying that defect, not a response. -/
theorem claim_C1_counterexample :
    fetchEffectInvoke (E := String) dieResponseEff [] sampleRequest [] sampleCtx
      = .rejected (.die "boom") := rfl

/-- C1 (amended): for the HttpApi and httpApp variants of
makeFetchHandler an unrecoverable abort (or failure) of the business
logic resolves the promise with an error-status response (status at
least 400); for the effect and function variants the same abort
surfaces as a rejected promise carrying the failure cause, not as an
error-status response. -/
theorem claim_C1_amended {E : Type}
    (middleware : Option (Eff E Response → Eff E Response))
    (app httpApp effect : Eff E Response)
    (f : Request → EnvMap → CloudflareExecutionContext → Eff E Response)
    (rtCtx : Ctx) (request : Request) (env : EnvMap)
    (ctx : RawExecutionContext) (c : Cause E)
    (hApi : applyMiddleware middleware app
      (mergeCtx rtCtx (fetchRequestContext ctx env)) = .failure c)
    (hApp : httpApp (mergeCtx rtCtx (fetchRequestContext ctx env)) = .failure c)
    (hEff : effect (mergeCtx rtCtx (fetchRequestContext ctx env)) = .failure c)
    (hFun : f request env (makeExecutionContext ctx)
      (mergeCtx rtCtx (fetchRequestContext ctx env)) = .failure c) :
    (∃ resp, apiHandlerInvoke middleware app rtCtx request env ctx = .resolved resp
      ∧ 400 ≤ resp.status)
    ∧ (∃ resp, httpAppHandlerInvoke httpApp rtCtx request env ctx = .resolved resp
      ∧ 400 ≤ resp.status)
    ∧ fetchEffectInvoke effect rtCtx request env ctx = .rejected c
    ∧ fetchFunctionInvoke f rtCtx request env ctx = .rejected c := by
  refine ⟨⟨{ status := 500, body := "Internal Server Error" }, ?_, by norm_num⟩,
    ⟨{ status := 500, body := "Internal Server Error" }, ?_, by norm_num⟩, ?_, ?_⟩
  · simp [apiHandlerInvoke, toWebHandlerRuntime, hApi]
  · simp [httpAppHandlerInvoke, toWebHandlerRuntime, hApp]
  · simp [fetchEffectInvoke, runPromise, provide, hEff]
  · simp [fetchFunctionInvoke, runPromise, provide, hFun]

theorem claim_C1_amended_witness :
    (∃ resp, apiHandlerInvoke (E := String) none dieResponseEff [] sampleRequest [] sampleCtx
      = .resolved resp ∧ 400 ≤ resp.status)
    ∧ (∃ resp, httpAppHandlerInvoke (E := String) dieResponseEff [] sampleRequest [] sampleCtx
      = .resolved resp ∧ 400 ≤ resp.status)
    ∧ fetchEffectInvoke (E := String) dieResponseEff [] sampleRequest [] sampleCtx
      = .rejected (.die "boom")
    ∧ fetchFunctionInvoke (E := String) (fun _ _ _ => dieResponseEff) [] sampleRequest [] sampleCtx
      = .rejected (.die "boom") :=
  claim_C1_amended none dieResponseEff dieResponseEff dieResponseEff
    (fun _ _ _ => dieResponseEff) [] sampleRequest [] sampleCtx (.die "boom")
    rfl rfl rfl rfl

/-- C2: for any N = pre + post greater than zero concurrent first
invocations of the handler of the caching fetch adapter, interleaved
arbitrarily with the completion of the single build task, the build
computation executes exactly once per adapter instance and every
invocation observes the same built entrypoint; in addition the shared
runtime materializes its assembly exactly once however many times it
is asked to. -/
theorem claim_C2_build_once (H : Type) (buildResult : H) (pre post n : Nat)
    (_hN : 1 ≤ pre + post) (hn : 1 ≤ n) :
    (runSchedule H buildResult pre post).1.buildRuns = 1
    ∧ (∀ h ∈ (runSchedule H buildResult pre post).2, h = buildResult)
    ∧ (runSchedule H buildResult pre post).2.length = pre + post
    ∧ (mrMaterializeN n mrMake).materializeRuns = 1 := by
  refine ⟨?_, ?_, ?_, ?_⟩
  · simp [runSchedule, makeApiAdapter, runBuildTask]
  · intro h hm
    simp [runSchedule, makeApiAdapter, runBuildTask, invokeObserve,
      List.mem_replicate] at hm
    tauto
  · simp [runSchedule]
  · cases n with
    | zero => omega
    | succ m =>
        have h1 : mrMaterialize mrMake =
            { materializeRuns := 1, acquired := true, released := 0, disposed := false } := rfl
        rw [mrMaterializeN, h1, mrMaterializeN_of_ne m _ (by simp)]

theorem claim_C2_build_once_witness :
    1 ≤ 2 + 1 ∧ 1 ≤ 3
    ∧ ((runSchedule Nat 7 2 1).1.buildRuns = 1
      ∧ (∀ h ∈ (runSchedule Nat 7 2 1).2, h = 7)
      ∧ (runSchedule Nat 7 2 1).2.length = 2 + 1
      ∧ (mrMaterializeN 3 mrMake).materializeRuns = 1) :=
  ⟨by norm_num, by norm_num,
    claim_C2_build_once Nat 7 2 1 3 (by norm_num) (by norm_num)⟩

/-- C3: two invocations of handlers sharing one runtime registry,
given different environment-bindings maps, each observe exactly the
bindings map passed to their own invocation when reading the Env
capability from their merged context, and never the other invocation's
bindings.  Each invocation's merged context is built freshly from its
own arguments, so no interleaving can mix them. -/
theorem claim_C3_env_isolation (rtCtx : Ctx) (env1 env2 : EnvMap)
    (ctx1 ctx2 : RawExecutionContext) (request1 request2 : Request)
    (hne : env1 ≠ env2) :
    fetchEffectInvoke (E := String) envProbeResponse rtCtx request1 env1 ctx1
      = .resolved { status := 200, body := envString env1 }
    ∧ fetchEffectInvoke (E := String) envProbeResponse rtCtx request2 env2 ctx2
      = .resolved { status := 200, body := envString env2 }
    ∧ lookupCtx (mergeCtx rtCtx (fetchRequestContext ctx1 env1)) .env
      = some (.envMap env1)
    ∧ lookupCtx (mergeCtx rtCtx (fetchRequestContext ctx2 env2)) .env
      = some (.envMap env2)
    ∧ lookupCtx (mergeCtx rtCtx (fetchRequestContext ctx1 env1)) .env
      ≠ lookupCtx (mergeCtx rtCtx (fetchRequestContext ctx2 env2)) .env := by
  refine ⟨?_, ?_, ?_, ?_, ?_⟩ <;>
    simp [fetchEffectInvoke, runPromise, provide, envProbeResponse, mergeCtx,
      fetchRequestContext, ctxAdd, ctxMake, lookupCtx, hne]

theorem claim_C3_env_isolation_witness :
    ([("TEST_VAR", "value1")] : EnvMap) ≠ [("TEST_VAR", "value2")]
    ∧ (fetchEffectInvoke (E := String) envProbeResponse [] sampleRequest
        [("TEST_VAR", "value1")] sampleCtx
      = .resolved { status := 200, body := envString [("TEST_VAR", "value1")] }
    ∧ fetchEffectInvoke (E := String) envProbeResponse [] sampleRequest
        [("TEST_VAR", "value2")] sampleCtx
      = .resolved { status := 200, body := envString [("TEST_VAR", "value2")] }
    ∧ lookupCtx (mergeCtx [] (fetchRequestContext sampleCtx [("TEST_VAR", "value1")])) .env
      = some (.envMap [("TEST_VAR", "value1")])
    ∧ lookupCtx (mergeCtx [] (fetchRequestContext sampleCtx [("TEST_VAR", "value2")])) .env
      = some (.envMap [("TEST_VAR", "value2")])
    ∧ lookupCtx (mergeCtx [] (fetchRequestContext sampleCtx [("TEST_VAR", "value1")])) .env
      ≠ lookupCtx (mergeCtx [] (fetchRequestContext sampleCtx [("TEST_VAR", "value2")])) .env) :=
  ⟨by decide,
    claim_C3_env_isolation [] [("TEST_VAR", "value1")] [("TEST_VAR", "value2")]
      sampleCtx sampleCtx sampleRequest sampleRequest (by decide)⟩

/-- C4 (code-bug evaluation): the claim states that a failure of a
background effect scheduled through waitUntil is logged.  In the
source, Effect.tapErrorCause(Effect.logError) is applied to
fiber.await, which always succeeds with the fiber's Exit as a value,
so when the background fiber fails nothing is logged and the promise
handed to the host's ctx.waitUntil resolves successfully: the failure
cause is silently dropped.  The scheduling effect itself does always
succeed (its error type is never), as the claim's first half states. -/
theorem claim_C4_background_failure_not_logged :
    (waitUntilBackground (A := Unit) (.failure (.fail "boom"))).logs = []
    ∧ runPromiseL (waitUntilBackground (A := Unit) (.failure (.fail "boom")))
      = .resolved ()
    ∧ waitUntilScheduling (A := Unit) (.failure (.fail "boom")) = .success () :=
  ⟨rfl, rfl, rfl⟩

/-- C5 counterexample: the claim states that constructing a caching
fetch adapter alone does not execute the build.  In the source the
factory body calls runtime.runPromise(build) at construction, so the
build task is already scheduled when the factory returns, and the host
event loop executes it without any handler invocation: with zero
invocations the build has run once. -/
theorem claim_C5_counterexample :
    (makeApiAdapter Nat).buildPending = true
    ∧ (runBuildTask 0 (makeApiAdapter Nat)).buildRuns = 1 := ⟨rfl, rfl⟩

/-- C5 (amended): the build computation of the caching fetch adapter
is started eagerly at adapter construction, not by the first handler
call; it executes exactly once; invocations never re-run it; and once
it has settled, invocations take the synchronous cached path and
observe the built entrypoint. -/
theorem claim_C5_amended (H : Type) (buildResult : H) (pre post : Nat) :
    (makeApiAdapter H).buildPending = true
    ∧ (makeApiAdapter H).buildRuns = 0
    ∧ (runBuildTask buildResult (makeApiAdapter H)).buildRuns = 1
    ∧ runBuildTask buildResult (runBuildTask buildResult (makeApiAdapter H))
      = runBuildTask buildResult (makeApiAdapter H)
    ∧ invokeUsesCache (runBuildTask buildResult (makeApiAdapter H)) = true
    ∧ invokeObserve buildResult (runBuildTask buildResult (makeApiAdapter H))
      = buildResult
    ∧ (runSchedule H buildResult pre post).1
      = runBuildTask buildResult (makeApiAdapter H) := by
  simp [makeApiAdapter, runBuildTask, invokeUsesCache, invokeObserve, runSchedule]

/-- C6: for each of the five single-kind factories, the returned
dispose is idempotent — applying it twice yields the same state as
applying it once — and the release actions of resources acquired
during materialization run exactly once (and not at all when nothing
was ever materialized), independently of invocations, which never
touch the runtime's lifecycle state. -/
theorem claim_C6_dispose_idempotent {E : Type}
    (fLogic : FetchLogic E) (sLogic : Logic CloudflareScheduledController E)
    (qLogic : Logic CloudflareMessageBatch E)
    (eLogic : Logic CloudflareForwardableEmailMessage E)
    (tLogic : Logic CloudflareTailEvents E) (s : MRState) :
    ((makeFetchHandler fLogic).dispose ((makeFetchHandler fLogic).dispose s)
      = (makeFetchHandler fLogic).dispose s)
    ∧ ((makeScheduledHandler sLogic).dispose ((makeScheduledHandler sLogic).dispose s)
      = (makeScheduledHandler sLogic).dispose s)
    ∧ ((makeQueueHandler qLogic).dispose ((makeQueueHandler qLogic).dispose s)
      = (makeQueueHandler qLogic).dispose s)
    ∧ ((makeEmailHandler eLogic).dispose ((makeEmailHandler eLogic).dispose s)
      = (makeEmailHandler eLogic).dispose s)
    ∧ ((makeTailHandler tLogic).dispose ((makeTailHandler tLogic).dispose s)
      = (makeTailHandler tLogic).dispose s)
    ∧ ((makeFetchHandler fLogic).dispose (mrMaterialize mrMake)).released = 1
    ∧ ((makeFetchHandler fLogic).dispose
        ((makeFetchHandler fLogic).dispose (mrMaterialize mrMake))).released = 1
    ∧ ((makeFetchHandler fLogic).dispose
        ((makeFetchHandler fLogic).dispose mrMake)).released = 0 :=
  ⟨mrDispose_idem s, mrDispose_idem s, mrDispose_idem s, mrDispose_idem s,
    mrDispose_idem s, rfl, rfl, rfl⟩

/-- C7: for every invocation, a capability lookup in the merged
context yields the per-invocation overlay value for the overlay's keys
(the event wrapper, the execution-context wrapper, the Env map) and
falls through to the shared runtime's materialized registry for every
other key; the merge builds a fresh registry from the two sources. -/
theorem claim_C7_overlay_fallthrough (rtCtx : Ctx)
    (controller : RawScheduledController) (env : EnvMap)
    (ctx : RawExecutionContext) (k : TagKey) :
    (∀ v, lookupCtx (scheduledRequestContext controller ctx env) k = some v →
      lookupCtx (mergeCtx rtCtx (scheduledRequestContext controller ctx env)) k = some v)
    ∧ (lookupCtx (scheduledRequestContext controller ctx env) k = none →
      lookupCtx (mergeCtx rtCtx (scheduledRequestContext controller ctx env)) k
        = lookupCtx rtCtx k)
    ∧ lookupCtx (mergeCtx rtCtx (scheduledRequestContext controller ctx env))
        .scheduledController = some (.scheduled (makeScheduledController controller))
    ∧ lookupCtx (mergeCtx rtCtx (scheduledRequestContext controller ctx env))
        .executionContext = some (.execCtx (makeExecutionContext ctx))
    ∧ lookupCtx (mergeCtx rtCtx (scheduledRequestContext controller ctx env))
        .env = some (.envMap env)
    ∧ lookupCtx (mergeCtx rtCtx (fetchRequestContext ctx env)) .env
      = some (.envMap env)
    ∧ lookupCtx (mergeCtx rtCtx (fetchRequestContext ctx env)) .executionContext
      = some (.execCtx (makeExecutionContext ctx)) := by
  refine ⟨?_, ?_, ?_, ?_, ?_, ?_, ?_⟩
  · intro v hv
    rw [mergeCtx, lookupCtx_append, hv]
  · intro hv
    rw [mergeCtx, lookupCtx_append, hv]
  all_goals
    simp [mergeCtx, scheduledRequestContext, fetchRequestContext, ctxAdd,
      ctxMake, lookupCtx]

theorem claim_C7_overlay_fallthrough_witness :
    lookupCtx
      (mergeCtx [(TagKey.service "db", CapValue.service "DB")]
        (scheduledRequestContext sampleController sampleCtx [("A", "1")]))
      (TagKey.service "db") = some (.service "DB")
    ∧ lookupCtx
      (mergeCtx [(TagKey.service "db", CapValue.service "DB")]
        (scheduledRequestContext sampleController sampleCtx [("A", "1")]))
      .env = some (.envMap [("A", "1")]) := by
  obtain ⟨h1, h2, h3, h4, h5, h6, h7⟩ :=
    claim_C7_overlay_fallthrough [(TagKey.service "db", CapValue.service "DB")]
      sampleController [("A", "1")] sampleCtx (TagKey.service "db")
  exact ⟨by rw [h2 (by decide)]; decide, h5⟩

/-- C8: for each of the five event kinds, push-style business logic is
applied to the per-invocation arguments (the event wrapper for the
four non-request kinds, the native request for the request kind, the
environment-bindings map, and the execution-context wrapper) and the
resulting computation runs with the same per-invocation merged context
as pull-style logic, so both styles can look up the per-invocation
capabilities; a push-style probe indeed observes its own invocation's
Env capability. -/
theorem claim_C8_push_pull_uniform {E : Type} (rtCtx : Ctx)
    (f : Request → EnvMap → CloudflareExecutionContext → Eff E Response)
    (effR : Eff E Response)
    (fs : CloudflareScheduledController → EnvMap → CloudflareExecutionContext → Eff E Unit)
    (es : Eff E Unit)
    (fq : CloudflareMessageBatch → EnvMap → CloudflareExecutionContext → Eff E Unit)
    (eq0 : Eff E Unit)
    (fe : CloudflareForwardableEmailMessage → EnvMap → CloudflareExecutionContext → Eff E Unit)
    (ee : Eff E Unit)
    (ft : CloudflareTailEvents → EnvMap → CloudflareExecutionContext → Eff E Unit)
    (et : Eff E Unit)
    (request : Request) (controller : RawScheduledController)
    (batch : RawMessageBatch) (message : RawEmailMessage)
    (events : RawTailEvents) (env : EnvMap) (ctx : RawExecutionContext) :
    fetchFunctionInvoke f rtCtx request env ctx
      = runPromise rtCtx (provide (f request env (makeExecutionContext ctx))
          (fetchRequestContext ctx env))
    ∧ fetchEffectInvoke effR rtCtx request env ctx
      = runPromise rtCtx (provide effR (fetchRequestContext ctx env))
    ∧ scheduledInvoke (.function fs) rtCtx controller env ctx
      = runPromise rtCtx (provide
          (fs (makeScheduledController controller) env (makeExecutionContext ctx))
          (scheduledRequestContext controller ctx env))
    ∧ scheduledInvoke (.computation es) rtCtx controller env ctx
      = runPromise rtCtx (provide es (scheduledRequestContext controller ctx env))
    ∧ queueInvoke (.function fq) rtCtx batch env ctx
      = runPromise rtCtx (provide
          (fq (makeMessageBatch batch) env (makeExecutionContext ctx))
          (queueRequestContext batch ctx env))
    ∧ queueInvoke (.computation eq0) rtCtx batch env ctx
      = runPromise rtCtx (provide eq0 (queueRequestContext batch ctx env))
    ∧ emailInvoke (.function fe) rtCtx message env ctx
      = runPromise rtCtx (provide
          (fe (makeForwardableEmailMessage message) env (makeExecutionContext ctx))
          (emailRequestContext message ctx env))
    ∧ emailInvoke (.computation ee) rtCtx message env ctx
      = runPromise rtCtx (provide ee (emailRequestContext message ctx env))
    ∧ tailInvoke (.function ft) rtCtx events env ctx
      = runPromise rtCtx (provide
          (ft (makeTailEvents events) env (makeExecutionContext ctx))
          (tailRequestContext events ctx env))
    ∧ tailInvoke (.computation et) rtCtx events env ctx
      = runPromise rtCtx (provide et (tailRequestContext events ctx env))
    ∧ scheduledInvoke (.function (fun _ _ _ => envCheckProbe env)) rtCtx
        controller env ctx = .resolved () := by
  refine ⟨rfl, rfl, rfl, rfl, rfl, rfl, rfl, rfl, rfl, rfl, ?_⟩
  simp [scheduledInvoke, scheduledRequestContext, ctxAdd, ctxMake, mergeCtx,
    provide, runPromise, envCheckProbe, lookupCtx]

/-- C9: the export object returned by makeEntrypoint contains exactly
those properties among fetch, scheduled, queue, email and tail for
which business logic was supplied in options.handlers, and every
contained handler executes against the single shared runtime built
once from the supplied layer. -/
theorem claim_C9_entrypoint_keys {E : Type} (options : EntrypointOptions E) :
    (lookupEntry (makeEntrypoint options) "fetch").isSome
      = options.handlers.fetch.isSome
    ∧ (lookupEntry (makeEntrypoint options) "scheduled").isSome
      = options.handlers.scheduled.isSome
    ∧ (lookupEntry (makeEntrypoint options) "queue").isSome
      = options.handlers.queue.isSome
    ∧ (lookupEntry (makeEntrypoint options) "email").isSome
      = options.handlers.email.isSome
    ∧ (lookupEntry (makeEntrypoint options) "tail").isSome
      = options.handlers.tail.isSome
    ∧ (makeEntrypoint options).map (fun p => entryRuntime p.2)
      = List.replicate (makeEntrypoint options).length
          (managedRuntimeMake options.layerId) := by
  obtain ⟨lid, ⟨hf, hs, hq, he, ht⟩⟩ := options
  cases hf <;> cases hs <;> cases hq <;> cases he <;> cases ht <;>
    simp [makeEntrypoint, lookupEntry, entryRuntime, List.replicate]

/-- C10: the export object returned by makeEntrypoint has no dispose
property — its properties are drawn only from fetch, scheduled, queue,
email and tail — so, unlike the objects returned by the five
single-kind factories, it exposes no way to tear down the shared
runtime it created. -/
theorem claim_C10_no_dispose {E : Type} (options : EntrypointOptions E) :
    ((makeEntrypoint options).map Prod.fst).contains "dispose" = false
    ∧ ((makeEntrypoint options).map Prod.fst).all
        (fun k => ["fetch", "scheduled", "queue", "email", "tail"].contains k)
      = true := by
  obtain ⟨lid, ⟨hf, hs, hq, he, ht⟩⟩ := options
  cases hf <;> cases hs <;> cases hq <;> cases he <;> cases ht <;>
    simp [makeEntrypoint]

end CFW
